import Mathlib

/-!
Shallow embedding of the EZql query-construction core (TypeScript).

Embedded components:
* `UpdateQB`    — `src/scr/core/query/UpdateQueryBuilder.ts` (`UpdateQueryBuilder`)
* `DeleteQB`    — `src/unnamed/part_012` (`DeleteQueryBuilder`)
* `MutSelect`   — `src/unnamed/part_011` (mutable `SelectQueryBuilder`)
* `InsertQB`    — `src/unnamed/part_011` (`InsertQueryBuilder`)
* `ImpSelect`   — `src/scr/core/query/SelectQueryBuilder-improved.ts`
                  (immutable `SelectQueryBuilder`)

JS objects with string keys (`QueryParameters`, SET/INSERT row objects) are
modelled as insertion-ordered association lists; JS `undefined` and `null`
are distinct `SqlValue` constructors, mirroring `===` semantics. Methods that
`throw` are modelled with `Except` (`EZqlError` for classes that throw
`EZqlError`, plain message `String` for classes that throw `new Error(msg)`).
Methods that mutate `this` and methods of the immutable builder both take the
builder and return the resulting builder value; `MutSelect.build`, whose body
mutates `this.parameters`, additionally returns the post-call builder state.
-/

/-- SQL scalar values (`SqlValue` in the source), with JS `undefined` kept
distinct from `null`. -/
inductive SqlValue where
  | vInt (n : Int)
  | vStr (s : String)
  | vBool (b : Bool)
  | vNull
  | undef
deriving DecidableEq, Repr

/-- `QueryParameters = Record<string, SqlValue>`: an insertion-ordered map. -/
abbrev QueryParameters := List (String × SqlValue)

/-- `EZqlError` carries a message and a machine-readable code. -/
structure EZqlError where
  message : String
  code : String
deriving DecidableEq, Repr

/-- The `{ sql, parameters }` pair returned by every `build()`. -/
structure BuildResult where
  sql : String
  parameters : QueryParameters
deriving DecidableEq, Repr

instance {ε α : Type} [DecidableEq ε] [DecidableEq α] : DecidableEq (Except ε α) :=
  fun a b =>
    match a, b with
    | .error e1, .error e2 =>
        if h : e1 = e2 then isTrue (by rw [h])
        else isFalse (by intro hh; cases hh; exact h rfl)
    | .ok a1, .ok a2 =>
        if h : a1 = a2 then isTrue (by rw [h])
        else isFalse (by intro hh; cases hh; exact h rfl)
    | .error _, .ok _ => isFalse (by intro hh; cases hh)
    | .ok _, .error _ => isFalse (by intro hh; cases hh)

/-- Synthetic placeholder name: JS template `param` + counter. -/
def paramName (i : Nat) : String := "param" ++ toString i

/-- Boolean substring test, modelling JS `String.prototype.includes`. -/
def strHasSub (s pat : String) : Bool :=
  s.toList.tails.any (fun t => pat.toList.isPrefixOf t)

/-- JS falsiness of `s?.trim()`: the string is empty or all whitespace.
(`String.trim` itself is defined by well-founded recursion in Lean and does
not reduce definitionally, so the check is expressed structurally.) -/
def jsBlank (s : String) : Bool := s.toList.all Char.isWhitespace

/-- JS-object upsert `obj[k] = v`: an existing key keeps its insertion
position and gets the new value; a fresh key is appended. -/
def jsUpsert (m : QueryParameters) (k : String) (v : SqlValue) : QueryParameters :=
  if m.any (fun p => p.1 = k) then m.map (fun p => if p.1 = k then (k, v) else p)
  else m ++ [(k, v)]

/-- Tagged WHERE-condition union (`WhereCondition` in `types/core`):
`simple`, `raw` (`values = none` models JS `value: undefined`),
`in` (here `inList`), `between`, `null` (here `nullCheck`). -/
inductive WhereCondition where
  | simple (column operator : String) (value : SqlValue)
  | raw (condition : String) (values : Option (List SqlValue))
  | inList (column operator : String) (values : List SqlValue)
  | between (column : String) (lo hi : SqlValue)
  | nullCheck (column operator : String)
deriving DecidableEq, Repr

/-- Number of parameter slots a condition consumes in the Update/Delete
`buildWhereClause` (raw conditions render their text and consume none). -/
def condSlots : WhereCondition → Nat
  | .simple .. => 1
  | .raw .. => 0
  | .inList _ _ vs => vs.length
  | .between .. => 2
  | .nullCheck .. => 0

/-- One iteration of the `switch` inside `buildWhereClause` shared verbatim by
`UpdateQueryBuilder` and `DeleteQueryBuilder`: render one condition at the
given running counter value and emit the parameters it binds. -/
def renderCondUD (c : WhereCondition) (paramIndex : Nat) : String × QueryParameters :=
  match c with
  | .raw condition _ => (condition, [])
  | .simple column operator value =>
      (column ++ " " ++ operator ++ " @" ++ paramName paramIndex,
       [(paramName paramIndex, value)])
  | .inList column operator values =>
      let pairs := values.enum.map (fun p => (paramName (paramIndex + p.1), p.2))
      (column ++ " " ++ operator ++ " (" ++
         String.intercalate ", " (pairs.map (fun q => "@" ++ q.1)) ++ ")",
       pairs)
  | .between column lo hi =>
      (column ++ " BETWEEN @" ++ paramName paramIndex ++ " AND @" ++ paramName (paramIndex + 1),
       [(paramName paramIndex, lo), (paramName (paramIndex + 1), hi)])
  | .nullCheck column operator => (column ++ " " ++ operator, [])

/-- `buildWhereClause(parameters, startIndex)` of UpdateQueryBuilder /
DeleteQueryBuilder: map over the conditions threading the counter, then
`join(' AND ')`; returns the clause and the freshly bound parameters. -/
def buildWhereUD (conds : List WhereCondition) (startIndex : Nat) : String × QueryParameters :=
  match conds with
  | [] => ("", [])
  | c :: rest =>
      let r := renderCondUD c startIndex
      let r2 := buildWhereUD rest (startIndex + condSlots c)
      (if rest.isEmpty then r.1 else r.1 ++ " AND " ++ r2.1, r.2 ++ r2.2)

namespace UpdateQB

/-- State of `UpdateQueryBuilder` (the injected query executor is irrelevant
to `build()` and omitted). -/
structure Builder where
  tableName : String
  setValues : QueryParameters
  whereConditions : List WhereCondition
  returningColumns : List String
deriving DecidableEq, Repr

def create : Builder := ⟨"", [], [], []⟩

def table (b : Builder) (t : String) : Builder := { b with tableName := t }

/-- `set(column, value)` overload. -/
def set (b : Builder) (column : String) (value : SqlValue) : Builder :=
  { b with setValues := jsUpsert b.setValues column value }

/-- `set(values)` overload: spread-merge into the accumulated row object. -/
def setMany (b : Builder) (values : QueryParameters) : Builder :=
  { b with setValues := values.foldl (fun m p => jsUpsert m p.1 p.2) b.setValues }

/-- `where(condition)` single-argument overload (raw, `value: undefined`). -/
def whereCond (b : Builder) (condition : String) : Builder :=
  { b with whereConditions := b.whereConditions ++ [WhereCondition.raw condition none] }

/-- `where(column, value)` overload (operator defaults to `=`). -/
def whereVal (b : Builder) (column : String) (value : SqlValue) : Builder :=
  { b with whereConditions := b.whereConditions ++ [WhereCondition.simple column "=" value] }

/-- `where(column, operator, value)` overload. -/
def whereOp (b : Builder) (column operator : String) (value : SqlValue) : Builder :=
  { b with whereConditions := b.whereConditions ++ [WhereCondition.simple column operator value] }

def whereIn (b : Builder) (column : String) (values : List SqlValue) : Builder :=
  { b with whereConditions := b.whereConditions ++ [WhereCondition.inList column "IN" values] }

def whereNotIn (b : Builder) (column : String) (values : List SqlValue) : Builder :=
  { b with whereConditions := b.whereConditions ++ [WhereCondition.inList column "NOT IN" values] }

def whereBetween (b : Builder) (column : String) (lo hi : SqlValue) : Builder :=
  { b with whereConditions := b.whereConditions ++ [WhereCondition.between column lo hi] }

def whereNull (b : Builder) (column : String) : Builder :=
  { b with whereConditions := b.whereConditions ++ [WhereCondition.nullCheck column "IS NULL"] }

def whereNotNull (b : Builder) (column : String) : Builder :=
  { b with whereConditions := b.whereConditions ++ [WhereCondition.nullCheck column "IS NOT NULL"] }

def returning (b : Builder) (columns : List String) : Builder :=
  { b with returningColumns := columns }

/-- `UpdateQueryBuilder.build()`: validates table / SET / WHERE presence (in
that order), numbers SET parameters from 0, continues the counter through the
WHERE clause, and appends `OUTPUT INSERTED.col` at the very end when
`returning` was used. Throws `new Error(msg)`, modelled as `.error msg`. -/
def build (b : Builder) : Except String BuildResult :=
  if b.tableName = "" then .error "Table name is required for UPDATE query"
  else if b.setValues.isEmpty then .error "No values to update"
  else if b.whereConditions.isEmpty then
    .error "WHERE clause is required for UPDATE query for safety"
  else
    let setClause := String.intercalate ", "
      (b.setValues.enum.map (fun p => p.2.1 ++ " = @" ++ paramName p.1))
    let setParams := b.setValues.enum.map (fun p => (paramName p.1, p.2.2))
    let w := buildWhereUD b.whereConditions b.setValues.length
    let sql0 := "UPDATE " ++ b.tableName ++ " SET " ++ setClause ++ " WHERE " ++ w.1
    let sql := if b.returningColumns.isEmpty then sql0
      else sql0 ++ " OUTPUT " ++
        String.intercalate ", " (b.returningColumns.map (fun c => "INSERTED." ++ c))
    .ok ⟨sql, setParams ++ w.2⟩

end UpdateQB

namespace DeleteQB

/-- State of `DeleteQueryBuilder` (src/unnamed/part_012). -/
structure Builder where
  tableName : String
  whereConditions : List WhereCondition
  returningColumns : List String
deriving DecidableEq, Repr

def create : Builder := ⟨"", [], []⟩

/-- `from(tableName)` (named `fromTable` here: `from` is reserved in Lean). -/
def fromTable (b : Builder) (t : String) : Builder := { b with tableName := t }

def whereCond (b : Builder) (condition : String) : Builder :=
  { b with whereConditions := b.whereConditions ++ [WhereCondition.raw condition none] }

def whereVal (b : Builder) (column : String) (value : SqlValue) : Builder :=
  { b with whereConditions := b.whereConditions ++ [WhereCondition.simple column "=" value] }

def whereOp (b : Builder) (column operator : String) (value : SqlValue) : Builder :=
  { b with whereConditions := b.whereConditions ++ [WhereCondition.simple column operator value] }

def whereIn (b : Builder) (column : String) (values : List SqlValue) : Builder :=
  { b with whereConditions := b.whereConditions ++ [WhereCondition.inList column "IN" values] }

def whereNotIn (b : Builder) (column : String) (values : List SqlValue) : Builder :=
  { b with whereConditions := b.whereConditions ++ [WhereCondition.inList column "NOT IN" values] }

def whereBetween (b : Builder) (column : String) (lo hi : SqlValue) : Builder :=
  { b with whereConditions := b.whereConditions ++ [WhereCondition.between column lo hi] }

def whereNull (b : Builder) (column : String) : Builder :=
  { b with whereConditions := b.whereConditions ++ [WhereCondition.nullCheck column "IS NULL"] }

def whereNotNull (b : Builder) (column : String) : Builder :=
  { b with whereConditions := b.whereConditions ++ [WhereCondition.nullCheck column "IS NOT NULL"] }

def returning (b : Builder) (columns : List String) : Builder :=
  { b with returningColumns := columns }

/-- `DeleteQueryBuilder.build()`: validates table then WHERE presence, numbers
WHERE parameters from 0, and appends `OUTPUT DELETED.col` at the very end. -/
def build (b : Builder) : Except String BuildResult :=
  if b.tableName = "" then .error "Table name is required for DELETE query"
  else if b.whereConditions.isEmpty then
    .error "WHERE clause is required for DELETE query for safety"
  else
    let w := buildWhereUD b.whereConditions 0
    let sql0 := "DELETE FROM " ++ b.tableName ++ " WHERE " ++ w.1
    let sql := if b.returningColumns.isEmpty then sql0
      else sql0 ++ " OUTPUT " ++
        String.intercalate ", " (b.returningColumns.map (fun c => "DELETED." ++ c))
    .ok ⟨sql, w.2⟩

end DeleteQB

/-- ORDER BY entry `{ column, direction }`. -/
structure OrderByClause where
  column : String
  direction : String
deriving DecidableEq, Repr

/-- JOIN entry `{ type, table, onCondition }`. -/
structure JoinClause where
  type : String
  table : String
  onCondition : String
deriving DecidableEq, Repr

/-- JS numeric truthiness of a nullable number field: `null` and `0` are
falsy, every other number is truthy. -/
def numTruthy : Option Int → Bool
  | none => false
  | some n => n != 0

namespace MutSelect

/-- Condition shape used by the mutable `SelectQueryBuilder`
(src/unnamed/part_011): one record, no tag is consulted at render time. -/
structure Condition where
  column : String
  operator : String
  value : SqlValue
  connector : Option String
  /-- the `condition` text of a `RawWhereCondition`; `buildWhereClause` of
  this class never reads it -/
  rawText : Option String
deriving DecidableEq, Repr

/-- State of the mutable `SelectQueryBuilder`; `parameters` is the
`any[]` array of already-collected values. -/
structure Builder where
  selectClause : List String
  fromClause : String
  whereConditions : List Condition
  joinClauses : List JoinClause
  orderByClause : List OrderByClause
  groupByClause : List String
  havingClause : String
  limitClause : Option Int
  offsetClause : Option Int
  parameters : List SqlValue
deriving DecidableEq, Repr

def create : Builder := ⟨[], "", [], [], [], [], "", none, none, []⟩

/-- `select(columns)`: replaces the select list. -/
def select (b : Builder) (columns : List String) : Builder :=
  { b with selectClause := columns }

def selectRaw (b : Builder) (rawSelect : String) : Builder :=
  { b with selectClause := [rawSelect] }

/-- `from(table)` (named `fromTable` here: `from` is reserved in Lean). -/
def fromTable (b : Builder) (table : String) : Builder :=
  { b with fromClause := table }

def join (b : Builder) (table onCondition : String) : Builder :=
  { b with joinClauses := b.joinClauses ++ [⟨"INNER", table, onCondition⟩] }

def leftJoin (b : Builder) (table onCondition : String) : Builder :=
  { b with joinClauses := b.joinClauses ++ [⟨"LEFT", table, onCondition⟩] }

/-- `where(column, operator, value, connector = 'AND')` (named `whereOp`:
`where` is reserved in Lean). The first condition stores no connector. -/
def whereOp (b : Builder) (column operator : String) (value : SqlValue)
    (connector : String := "AND") : Builder :=
  { b with whereConditions := b.whereConditions ++
      [⟨column, operator, value,
        if b.whereConditions.isEmpty then none else some connector, none⟩] }

/-- `whereRaw(condition, ...values)`: pushes every value into `parameters`
immediately and records `value = values[0]` (JS `undefined` when absent). -/
def whereRaw (b : Builder) (condition : String) (values : List SqlValue) : Builder :=
  { b with
      parameters := b.parameters ++ values,
      whereConditions := b.whereConditions ++
        [⟨"", "raw", (values.head?).getD SqlValue.undef,
          if b.whereConditions.isEmpty then none else some "AND", some condition⟩] }

def orderBy (b : Builder) (column : String) (direction : String := "ASC") : Builder :=
  { b with orderByClause := b.orderByClause ++ [⟨column, direction⟩] }

def groupBy (b : Builder) (columns : List String) : Builder :=
  { b with groupByClause := b.groupByClause ++ columns }

def having (b : Builder) (condition : String) : Builder :=
  { b with havingClause := condition }

def limit (b : Builder) (count : Int) : Builder :=
  { b with limitClause := some count }

def offset (b : Builder) (count : Int) : Builder :=
  { b with offsetClause := some count }

/-- The `map` body of `buildWhereClause`: a condition with `operator === '='`
and `value === null` is treated as raw text; otherwise a placeholder named
after the current length of `this.parameters` is rendered and the value is
pushed onto `parameters` (this mutates the builder during `build`). From the
second condition on, the stored connector is interpolated (JS renders the
string `undefined` when the connector is absent). -/
def renderConds : List Condition → Nat → List SqlValue → List String × List SqlValue
  | [], _, ps => ([], ps)
  | c :: rest, idx, ps =>
      let r : String × List SqlValue :=
        if c.operator = "=" ∧ c.value = SqlValue.vNull then (c.column, ps)
        else (c.column ++ " " ++ c.operator ++ " @" ++ paramName ps.length,
              ps ++ [c.value])
      let str := if idx = 0 then r.1
        else (match c.connector with | some s => s | none => "undefined") ++ " " ++ r.1
      let rec2 := renderConds rest (idx + 1) r.2
      (str :: rec2.1, rec2.2)

/-- `getParametersAsObject()`: `parameters[i]` becomes key `param{i}`. -/
def getParametersAsObject (ps : List SqlValue) : QueryParameters :=
  ps.enum.map (fun p => (paramName p.1, p.2))

/-- `build()` of the mutable SelectQueryBuilder. Validation only requires a
FROM clause. `TOP` is emitted when `limitClause` is truthy and `offsetClause`
is falsy (JS truthiness, so an offset of 0 does not suppress `TOP`); an
`OFFSET` block is emitted whenever `offsetClause !== null`, synthesizing
`ORDER BY (SELECT NULL)` when no ORDER BY exists, with `FETCH NEXT` only when
`limitClause` is truthy. Returns the result together with the mutated builder
(`buildWhereClause` pushes into `this.parameters`). -/
def build (b : Builder) : Except EZqlError BuildResult × Builder :=
  if b.fromClause = "" then
    (.error ⟨"FROM clause is required", "VALIDATION_ERROR"⟩, b)
  else
    let top := if numTruthy b.limitClause ∧ ¬ numTruthy b.offsetClause then
        "TOP " ++ toString (b.limitClause.getD 0) ++ " " else ""
    let sql := "SELECT " ++ top ++
      (if b.selectClause.length > 0 then String.intercalate ", " b.selectClause else "*") ++
      " FROM " ++ b.fromClause
    let sql := if b.joinClauses.isEmpty then sql else sql ++ " " ++
      String.intercalate " "
        (b.joinClauses.map (fun j => j.type ++ " JOIN " ++ j.table ++ " ON " ++ j.onCondition))
    let w := renderConds b.whereConditions 0 b.parameters
    let sql := if b.whereConditions.isEmpty then sql
      else sql ++ " WHERE " ++ String.intercalate " " w.1
    let ps := if b.whereConditions.isEmpty then b.parameters else w.2
    let sql := if b.groupByClause.isEmpty then sql
      else sql ++ " GROUP BY " ++ String.intercalate ", " b.groupByClause
    let sql := if b.havingClause = "" then sql else sql ++ " HAVING " ++ b.havingClause
    let sql := if b.orderByClause.isEmpty then sql
      else sql ++ " ORDER BY " ++ String.intercalate ", "
        (b.orderByClause.map (fun o => o.column ++ " " ++ o.direction))
    let sql := match b.offsetClause with
      | some o =>
          let sql := if b.orderByClause.isEmpty then sql ++ " ORDER BY (SELECT NULL)" else sql
          let sql := sql ++ " OFFSET " ++ toString o ++ " ROWS"
          if numTruthy b.limitClause then
            sql ++ " FETCH NEXT " ++ toString (b.limitClause.getD 0) ++ " ROWS ONLY"
          else sql
      | none => sql
    (.ok ⟨sql, getParametersAsObject ps⟩, { b with parameters := ps })

end MutSelect

namespace InsertQB

/-- State of `InsertQueryBuilder` (src/unnamed/part_011); row objects are
insertion-ordered association lists. -/
structure Builder where
  tableName : String
  insertValues : QueryParameters
  multipleValues : List QueryParameters
  returningColumns : List String
deriving DecidableEq, Repr

def create : Builder := ⟨"", [], [], []⟩

def into (b : Builder) (table : String) : Builder := { b with tableName := table }

def value (b : Builder) (column : String) (v : SqlValue) : Builder :=
  { b with insertValues := jsUpsert b.insertValues column v }

def values (b : Builder) (data : QueryParameters) : Builder :=
  { b with insertValues := data.foldl (fun m p => jsUpsert m p.1 p.2) b.insertValues }

def multipleRows (b : Builder) (rows : List QueryParameters) : Builder :=
  { b with multipleValues := rows }

def returning (b : Builder) (columns : List String) : Builder :=
  { b with returningColumns := columns }

/-- JS property read `row[column]`: `undefined` when the key is absent. -/
def lookupRow (row : QueryParameters) (col : String) : SqlValue :=
  match row.find? (fun p => p.1 = col) with
  | some p => p.2
  | none => SqlValue.undef

/-- Inner `columns.forEach` of `buildMultipleInsert`: bind one parameter per
column of the current row, threading the running counter. -/
def renderRow : List String → QueryParameters → Nat → QueryParameters × List String
  | [], _, _ => ([], [])
  | col :: cols, row, idx =>
      let r := renderRow cols row (idx + 1)
      ((paramName idx, lookupRow row col) :: r.1, ("@" ++ paramName idx) :: r.2)

/-- Outer `this.multipleValues.forEach` of `buildMultipleInsert`: one
parenthesised values clause per row, counter running across rows. -/
def renderRows : List QueryParameters → List String → Nat → QueryParameters × List String
  | [], _, _ => ([], [])
  | row :: rest, cols, idx =>
      let r := renderRow cols row idx
      let r2 := renderRows rest cols (idx + cols.length)
      (r.1 ++ r2.1, ("(" ++ String.intercalate ", " r.2 ++ ")") :: r2.2)

/-- `buildSingleInsert`: columns and values from the accumulated row object,
parameters numbered from 0, `OUTPUT INSERTED.col` appended at the end. -/
def buildSingleInsert (b : Builder) : Except String BuildResult :=
  if b.insertValues.isEmpty then .error "No values provided for INSERT query"
  else
    let cols := b.insertValues.map (fun p => p.1)
    let params := b.insertValues.enum.map (fun p => (paramName p.1, p.2.2))
    let names := b.insertValues.enum.map (fun p => "@" ++ paramName p.1)
    let sql := "INSERT INTO " ++ b.tableName ++ " (" ++ String.intercalate ", " cols ++
      ") VALUES (" ++ String.intercalate ", " names ++ ")"
    let sql := if b.returningColumns.isEmpty then sql
      else sql ++ " OUTPUT " ++
        String.intercalate ", " (b.returningColumns.map (fun c => "INSERTED." ++ c))
    .ok ⟨sql, params⟩

/-- `buildMultipleInsert`: the column list comes from the first row only;
every row is rendered against that column list with consecutive parameter
names continuing the running counter. -/
def buildMultipleInsert (b : Builder) : Except String BuildResult :=
  match b.multipleValues with
  | [] => .error "No values provided for multiple INSERT query"
  | firstRow :: _ =>
      let cols := firstRow.map (fun p => p.1)
      let r := renderRows b.multipleValues cols 0
      let sql := "INSERT INTO " ++ b.tableName ++ " (" ++ String.intercalate ", " cols ++
        ") VALUES " ++ String.intercalate ", " r.2
      let sql := if b.returningColumns.isEmpty then sql
        else sql ++ " OUTPUT " ++
          String.intercalate ", " (b.returningColumns.map (fun c => "INSERTED." ++ c))
      .ok ⟨sql, r.1⟩

/-- `InsertQueryBuilder.build()`: requires a table, then dispatches on whether
`multipleRows` was used. -/
def build (b : Builder) : Except String BuildResult :=
  if b.tableName = "" then .error "Table name is required for INSERT query"
  else if b.multipleValues.length > 0 then buildMultipleInsert b
  else buildSingleInsert b

end InsertQB

namespace ImpSelect

/-- Aggregate entry `{ function, column, alias? }` of the improved builder. -/
structure Aggregate where
  func : String
  column : String
  aliasName : Option String
deriving DecidableEq, Repr

/-- `GroupByClause = { columns, having? }`. -/
structure GroupBy where
  columns : List String
  having : Option String
deriving DecidableEq, Repr

/-- Immutable state of the improved `SelectQueryBuilder`
(src/scr/core/query/SelectQueryBuilder-improved.ts). The private constructor
normalizes with `||`, so a `limitClause`/`offsetClause` of 0 is stored as
`null` (here `none`). -/
structure Builder where
  selectColumns : List String
  aggregates : List Aggregate
  fromClause : String
  whereConditions : List WhereCondition
  joinClauses : List JoinClause
  orderByClause : List OrderByClause
  groupByClause : Option GroupBy
  limitClause : Option Int
  offsetClause : Option Int
  parameters : QueryParameters
  distinctClause : Bool
deriving DecidableEq, Repr

/-- `SelectQueryBuilder.create()`. -/
def create : Builder := ⟨[], [], "", [], [], [], none, none, none, [], false⟩

/-- `validateColumnName`: empty after trim, or containing `;` or `--`. -/
def validateColumnName (column : String) : Option EZqlError :=
  if jsBlank column then
    some ⟨"Column name cannot be empty", "INVALID_COLUMN_NAME"⟩
  else if strHasSub column ";" ∨ strHasSub column "--" then
    some ⟨"Invalid characters in column name", "INVALID_COLUMN_NAME"⟩
  else none

/-- `validateTableName`: same checks with table-specific messages. -/
def validateTableName (table : String) : Option EZqlError :=
  if jsBlank table then
    some ⟨"Table name cannot be empty", "INVALID_TABLE_NAME"⟩
  else if strHasSub table ";" ∨ strHasSub table "--" then
    some ⟨"Invalid characters in table name", "INVALID_TABLE_NAME"⟩
  else none

/-- `validateColumns`: non-empty list, then each name in order (`forEach`
throws at the first offender). -/
def validateColumns (columns : List String) : Option EZqlError :=
  if columns.isEmpty then
    some ⟨"SELECT requires at least one column", "INVALID_SELECT_COLUMNS"⟩
  else columns.findSome? validateColumnName

/-- `select(columns)`: validates eagerly, then appends to the select list of
a fresh clone. -/
def select (b : Builder) (columns : List String) : Except EZqlError Builder :=
  match validateColumns columns with
  | some e => .error e
  | none => .ok { b with selectColumns := b.selectColumns ++ columns }

/-- `from(table)` (named `fromTable` here: `from` is reserved in Lean). -/
def fromTable (b : Builder) (table : String) : Except EZqlError Builder :=
  match validateTableName table with
  | some e => .error e
  | none => .ok { b with fromClause := table }

/-- `extractParameters(condition)`: parameter names continue from the current
size of the accumulated map. -/
def extractParameters (b : Builder) (c : WhereCondition) : QueryParameters :=
  let paramIndex := b.parameters.length
  match c with
  | .simple _ _ value => [(paramName paramIndex, value)]
  | .inList _ _ values => values.enum.map (fun p => (paramName (paramIndex + p.1), p.2))
  | .between _ lo hi =>
      [(paramName paramIndex, lo), (paramName (paramIndex + 1), hi)]
  | .raw _ values =>
      match values with
      | some vs => vs.enum.map (fun p => (paramName (paramIndex + p.1), p.2))
      | none => []
  | .nullCheck _ _ => []

/-- Append a condition and merge its extracted parameters (the update used by
`where`/`whereIn`/`whereBetween`/`whereRaw`). -/
def addCondition (b : Builder) (c : WhereCondition) : Builder :=
  { b with whereConditions := b.whereConditions ++ [c],
           parameters := b.parameters ++ extractParameters b c }

/-- `where(column, operator, value)` overload (named `whereOp`: `where` is
reserved in Lean); performs no validation. -/
def whereOp (b : Builder) (column operator : String) (value : SqlValue) : Builder :=
  addCondition b (WhereCondition.simple column operator value)

/-- `where(column, value)` overload: operator defaults to `=`. -/
def whereVal (b : Builder) (column : String) (value : SqlValue) : Builder :=
  addCondition b (WhereCondition.simple column "=" value)

/-- `where(condition)` single-argument overload: raw with `value: undefined`. -/
def whereCond (b : Builder) (condition : String) : Builder :=
  addCondition b (WhereCondition.raw condition none)

def whereIn (b : Builder) (column : String) (values : List SqlValue) : Except EZqlError Builder :=
  match validateColumnName column with
  | some e => .error e
  | none =>
      if values.isEmpty then
        .error ⟨"IN clause requires non-empty array", "INVALID_IN_VALUES"⟩
      else .ok (addCondition b (WhereCondition.inList column "IN" values))

def whereNotIn (b : Builder) (column : String) (values : List SqlValue) : Except EZqlError Builder :=
  match validateColumnName column with
  | some e => .error e
  | none =>
      if values.isEmpty then
        .error ⟨"IN clause requires non-empty array", "INVALID_IN_VALUES"⟩
      else .ok (addCondition b (WhereCondition.inList column "NOT IN" values))

def whereBetween (b : Builder) (column : String) (lo hi : SqlValue) : Except EZqlError Builder :=
  match validateColumnName column with
  | some e => .error e
  | none => .ok (addCondition b (WhereCondition.between column lo hi))

def whereNull (b : Builder) (column : String) : Except EZqlError Builder :=
  match validateColumnName column with
  | some e => .error e
  | none => .ok { b with whereConditions := b.whereConditions ++
      [WhereCondition.nullCheck column "IS NULL"] }

def whereNotNull (b : Builder) (column : String) : Except EZqlError Builder :=
  match validateColumnName column with
  | some e => .error e
  | none => .ok { b with whereConditions := b.whereConditions ++
      [WhereCondition.nullCheck column "IS NOT NULL"] }

def whereRaw (b : Builder) (condition : String) (values : List SqlValue) : Except EZqlError Builder :=
  if jsBlank condition then
    .error ⟨"Raw WHERE condition cannot be empty", "INVALID_RAW_WHERE"⟩
  else .ok (addCondition b (WhereCondition.raw condition (some values)))

def orderBy (b : Builder) (column : String) (direction : String := "ASC") : Except EZqlError Builder :=
  match validateColumnName column with
  | some e => .error e
  | none =>
      if direction = "ASC" ∨ direction = "DESC" then
        .ok { b with orderByClause := b.orderByClause ++ [⟨column, direction⟩] }
      else .error ⟨"Order direction must be ASC or DESC", "INVALID_ORDER_DIRECTION"⟩

/-- `limit(count)`: `validateLimitOffset` rejects negatives; the value then
passes through the private constructor, whose `options.limitClause || null`
turns 0 into `null` (the non-integer half of `Number.isInteger` has no
counterpart for `Int` arguments). -/
def limit (b : Builder) (count : Int) : Except EZqlError Builder :=
  if count < 0 then
    .error ⟨"LIMIT must be a non-negative integer", "INVALID_LIMIT_OFFSET"⟩
  else .ok { b with limitClause := if count = 0 then none else some count }

/-- `offset(count)`: same validation and `|| null` normalization as `limit`. -/
def offset (b : Builder) (count : Int) : Except EZqlError Builder :=
  if count < 0 then
    .error ⟨"OFFSET must be a non-negative integer", "INVALID_LIMIT_OFFSET"⟩
  else .ok { b with offsetClause := if count = 0 then none else some count }

def groupBy (b : Builder) (columns : List String) : Except EZqlError Builder :=
  if columns.isEmpty then
    .error ⟨"GROUP BY requires at least one column", "INVALID_GROUP_BY"⟩
  else match columns.findSome? validateColumnName with
    | some e => .error e
    | none => .ok { b with groupByClause := some ⟨columns, none⟩ }

def having (b : Builder) (condition : String) : Except EZqlError Builder :=
  if jsBlank condition then
    .error ⟨"HAVING condition cannot be empty", "INVALID_HAVING"⟩
  else
    let g := (b.groupByClause.getD ⟨[], none⟩)
    .ok { b with groupByClause := some ⟨g.columns, some condition⟩ }

/-- `validate()`: the list of accumulated error strings, in source order. -/
def validate (b : Builder) : List String :=
  (if b.fromClause = "" then ["FROM clause is required"] else []) ++
  (if b.selectColumns.isEmpty ∧ b.aggregates.isEmpty then
      ["SELECT clause is required"] else []) ++
  (if ¬ b.aggregates.isEmpty ∧ b.groupByClause.isNone ∧ ¬ b.selectColumns.isEmpty then
      ["Non-aggregate columns in SELECT require GROUP BY clause"] else []) ++
  (match b.groupByClause with
   | some g => if g.having.isSome ∧ g.columns.isEmpty then
        ["HAVING clause requires GROUP BY clause"] else []
   | none => []) ++
  (if b.offsetClause.isSome ∧ b.limitClause.isNone then
      ["OFFSET requires LIMIT clause in SQL Server"] else [])

/-- One arm of the `switch` in `buildWhereClause`: the rendered fragment and
the advanced counter. Placeholder names are minted here, independently of the
names recorded by `extractParameters`. -/
def renderCondImp (c : WhereCondition) (paramIndex : Nat) : String × Nat :=
  match c with
  | .raw condition _ => (condition, paramIndex)
  | .simple column operator _ =>
      (column ++ " " ++ operator ++ " @" ++ paramName paramIndex, paramIndex + 1)
  | .inList column operator values =>
      (column ++ " " ++ operator ++ " (" ++
        String.intercalate ", "
          ((List.range values.length).map (fun i => "@" ++ paramName (paramIndex + i))) ++ ")",
       paramIndex + values.length)
  | .between column _ _ =>
      (column ++ " BETWEEN @" ++ paramName paramIndex ++ " AND @" ++ paramName (paramIndex + 1),
       paramIndex + 2)
  | .nullCheck column operator => (column ++ " " ++ operator, paramIndex)

/-- The fragments of `buildWhereClause`, threading the counter. -/
def buildWhereAux : List WhereCondition → Nat → List String
  | [], _ => []
  | c :: rest, i =>
      let r := renderCondImp c i
      r.1 :: buildWhereAux rest r.2

/-- `buildWhereClause()`: the counter starts at
`Object.keys(this.parameters).length`, i.e. the full size of the
already-collected parameter map, then the fragments are joined with `AND`. -/
def buildWhereClause (b : Builder) : String :=
  String.intercalate " AND " (buildWhereAux b.whereConditions b.parameters.length)

/-- `buildSql()`: fixed assembly order
SELECT / DISTINCT / list / FROM / JOIN / WHERE / GROUP BY / HAVING /
ORDER BY / OFFSET-FETCH (an `OFFSET 0` is synthesized when only `limit` is
set; `TOP` is never used by this builder). -/
def buildSql (b : Builder) : String :=
  let aggParts := b.aggregates.map (fun a =>
    let s := a.func ++ "(" ++ a.column ++ ")"
    match a.aliasName with | some al => s ++ " AS " ++ al | none => s)
  let selectParts := b.selectColumns ++ aggParts
  let sql := "SELECT " ++ (if b.distinctClause then "DISTINCT " else "") ++
    (if selectParts.length > 0 then String.intercalate ", " selectParts else "*") ++
    " FROM " ++ b.fromClause
  let sql := if b.joinClauses.isEmpty then sql else sql ++ " " ++
    String.intercalate " "
      (b.joinClauses.map (fun j => j.type ++ " JOIN " ++ j.table ++ " ON " ++ j.onCondition))
  let sql := if b.whereConditions.isEmpty then sql
    else sql ++ " WHERE " ++ buildWhereClause b
  let sql := match b.groupByClause with
    | some g =>
        if g.columns.isEmpty then sql
        else sql ++ " GROUP BY " ++ String.intercalate ", " g.columns ++
          (match g.having with | some h => " HAVING " ++ h | none => "")
    | none => sql
  let sql := if b.orderByClause.isEmpty then sql
    else sql ++ " ORDER BY " ++ String.intercalate ", "
      (b.orderByClause.map (fun o => o.column ++ " " ++ o.direction))
  match b.limitClause with
  | some l =>
      match b.offsetClause with
      | some o => sql ++ " OFFSET " ++ toString o ++ " ROWS FETCH NEXT " ++
          toString l ++ " ROWS ONLY"
      | none => sql ++ " OFFSET 0 ROWS FETCH NEXT " ++ toString l ++ " ROWS ONLY"
  | none => sql

/-- `build()` with the post-call instance state made explicit: the method
only reads `this` (all fields are `readonly`; `buildSql`/`buildWhereClause`
use local variables), so the state component is the receiver unchanged. -/
def buildSt (b : Builder) : Except EZqlError BuildResult × Builder :=
  let errors := validate b
  if errors.isEmpty then (.ok ⟨buildSql b, b.parameters⟩, b)
  else (.error ⟨"Invalid query: " ++ String.intercalate ", " errors,
        "INVALID_QUERY_BUILD"⟩, b)

/-- The `{sql, parameters}` (or error) that `build()` returns. -/
def build (b : Builder) : Except EZqlError BuildResult := (buildSt b).1

end ImpSelect

/-! ## Specification-side helpers and lemmas -/

/-- Values `vs` numbered with consecutive placeholder names starting at `k`:
the reference enumeration `paramK, paramK+1, ...`. -/
def enumFrom (k : Nat) : List SqlValue → QueryParameters
  | [] => []
  | v :: vs => (paramName k, v) :: enumFrom (k + 1) vs

/-- The values of a multi-row INSERT in binding order: for each row in order,
the row's values at the first row's columns (columns vary fastest). -/
def rowMajorValues : List String → List QueryParameters → List SqlValue
  | _, [] => []
  | cols, row :: rest => cols.map (InsertQB.lookupRow row) ++ rowMajorValues cols rest

theorem enumFrom_append (k : Nat) (xs ys : List SqlValue) :
    enumFrom k (xs ++ ys) = enumFrom k xs ++ enumFrom (k + xs.length) ys := by
  induction xs generalizing k with
  | nil => simp [enumFrom]
  | cons x xs ih =>
      have h : k + 1 + xs.length = k + (xs.length + 1) := by omega
      simp only [List.cons_append, enumFrom, List.append_eq, ih, List.length_cons, h]

theorem renderRow_fst (cols : List String) (row : QueryParameters) (k : Nat) :
    (InsertQB.renderRow cols row k).1 = enumFrom k (cols.map (InsertQB.lookupRow row)) := by
  induction cols generalizing k with
  | nil => simp [InsertQB.renderRow, enumFrom]
  | cons c cols ih => simp [InsertQB.renderRow, enumFrom, ih]

theorem renderRows_fst (rows : List QueryParameters) (cols : List String) (k : Nat) :
    (InsertQB.renderRows rows cols k).1 = enumFrom k (rowMajorValues cols rows) := by
  induction rows generalizing k with
  | nil => simp [InsertQB.renderRows, rowMajorValues, enumFrom]
  | cons row rest ih =>
      simp [InsertQB.renderRows, rowMajorValues, enumFrom_append, renderRow_fst, ih]

theorem findSomeNoneOfAll (f : String → Option EZqlError) (l : List String)
    (hl : ∀ c ∈ l, f c = none) : l.findSome? f = none :=
  List.findSome?_eq_none_iff.mpr hl

/-! ## Claim theorems -/

/-- C1: in the immutable SelectQueryBuilder, the parameter-map keys are
`param0..param(n-1)` as claimed, but `buildWhereClause` starts its placeholder
counter at the size of the parameter map, so the placeholder rendered into the
SQL (`@param1` here) is not a key of the emitted map (whose only key is
`param0`). The claim that every rendered placeholder is a key of the map fails
on this builder. -/
theorem C1_rendered_placeholder_not_in_parameter_map :
    ((ImpSelect.select ImpSelect.create ["a"]).bind (fun b =>
      (ImpSelect.fromTable b "t").map (fun b2 =>
        ImpSelect.whereOp b2 "x" "=" (SqlValue.vInt 5)))).bind ImpSelect.build =
      .ok ⟨"SELECT a FROM t WHERE x = @param1", [("param0", SqlValue.vInt 5)]⟩ ∧
    strHasSub "SELECT a FROM t WHERE x = @param1" ("@" ++ paramName 1) = true ∧
    (([("param0", SqlValue.vInt 5)] : QueryParameters).map (fun p => p.1)) = [paramName 0] ∧
    (([("param0", SqlValue.vInt 5)] : QueryParameters).map (fun p => p.1)).contains
      (paramName 1) = false := by
  refine ⟨by decide, by decide, by decide, by decide⟩

/-- C2 counterexample: an UPDATE builder with zero WHERE conditions but also
no table fails with the missing-table error, not with the
UnsafeMutationWithoutWhere message, refuting the claim's "regardless of table
and SET state". -/
theorem C2_counterexample_table_error_first :
    UpdateQB.create.whereConditions = [] ∧
    UpdateQB.build UpdateQB.create = .error "Table name is required for UPDATE query" ∧
    ("Table name is required for UPDATE query" ≠
      "WHERE clause is required for UPDATE query for safety") := by
  refine ⟨rfl, by decide, by decide⟩

/-- C2 (amended): every UPDATE or DELETE builder with zero WHERE conditions
fails to build (no SQL is ever returned); the failure is the
UnsafeMutationWithoutWhere message exactly when the earlier checks pass
(table present, and for UPDATE at least one SET value). -/
theorem C2_zero_where_blocks_update_delete :
    (∀ u : UpdateQB.Builder, u.whereConditions = [] →
        ∀ res : BuildResult, UpdateQB.build u ≠ Except.ok res) ∧
    (∀ u : UpdateQB.Builder, u.tableName ≠ "" → u.setValues ≠ [] →
        u.whereConditions = [] →
        UpdateQB.build u = .error "WHERE clause is required for UPDATE query for safety") ∧
    (∀ d : DeleteQB.Builder, d.whereConditions = [] →
        ∀ res : BuildResult, DeleteQB.build d ≠ Except.ok res) ∧
    (∀ d : DeleteQB.Builder, d.tableName ≠ "" → d.whereConditions = [] →
        DeleteQB.build d = .error "WHERE clause is required for DELETE query for safety") := by
  refine ⟨?_, ?_, ?_, ?_⟩
  · intro u h3 res
    simp only [UpdateQB.build, h3]
    split
    · simp
    · split <;> simp
  · intro u h1 h2 h3
    simp [UpdateQB.build, h1, h2, h3]
  · intro d h3 res
    simp only [DeleteQB.build, h3]
    split <;> simp
  · intro d h1 h3
    simp [DeleteQB.build, h1, h3]

/-- C2 witness: the amended theorem applied to concrete UPDATE and DELETE
builders whose only defect is the empty WHERE list. -/
theorem C2_zero_where_blocks_update_delete_witness :
    UpdateQB.build ⟨"users", [("active", SqlValue.vBool false)], [], []⟩ =
      .error "WHERE clause is required for UPDATE query for safety" ∧
    DeleteQB.build ⟨"users", [], []⟩ =
      .error "WHERE clause is required for DELETE query for safety" :=
  ⟨C2_zero_where_blocks_update_delete.2.1
      ⟨"users", [("active", SqlValue.vBool false)], [], []⟩ (by decide) (by decide) rfl,
   C2_zero_where_blocks_update_delete.2.2.2 ⟨"users", [], []⟩ (by decide) rfl⟩

/-- C3: the two SELECT builders disagree on offset-without-limit. The
immutable builder rejects it at build time with "OFFSET requires LIMIT clause
in SQL Server", while the mutable builder builds successfully and synthesizes
`ORDER BY (SELECT NULL) OFFSET 10 ROWS` with no FETCH clause, which is what
the claim (and the spec's chosen path) describes. -/
theorem C3_offset_without_limit_two_builders :
    ((ImpSelect.select ImpSelect.create ["*"]).bind (fun b =>
      (ImpSelect.fromTable b "t").bind (fun b2 => ImpSelect.offset b2 10))).bind
        ImpSelect.build =
      .error ⟨"Invalid query: OFFSET requires LIMIT clause in SQL Server",
              "INVALID_QUERY_BUILD"⟩ ∧
    (MutSelect.build (MutSelect.offset
        (MutSelect.fromTable (MutSelect.select MutSelect.create ["*"]) "t") 10)).1 =
      .ok ⟨"SELECT * FROM t ORDER BY (SELECT NULL) OFFSET 10 ROWS", []⟩ ∧
    strHasSub "SELECT * FROM t ORDER BY (SELECT NULL) OFFSET 10 ROWS"
      "ORDER BY (SELECT NULL) OFFSET 10 ROWS" = true ∧
    strHasSub "SELECT * FROM t ORDER BY (SELECT NULL) OFFSET 10 ROWS" "FETCH" = false := by
  refine ⟨by decide, by decide, by decide, by decide⟩

/-- C4 counterexample: after `limit(5).offset(0)` the offset IS set
(`offsetClause = some 0`), yet `TOP 5` is still emitted (JS truthiness makes
`!this.offsetClause` true for 0), so "TOP n is emitted exactly when limit is
set and offset is not" fails; the query even carries both `TOP` and
`OFFSET/FETCH`. -/
theorem C4_counterexample_top_with_offset_zero :
    (MutSelect.offset (MutSelect.limit
      (MutSelect.fromTable (MutSelect.select MutSelect.create ["*"]) "t") 5) 0).offsetClause
        = some 0 ∧
    (MutSelect.build (MutSelect.offset (MutSelect.limit
      (MutSelect.fromTable (MutSelect.select MutSelect.create ["*"]) "t") 5) 0)).1 =
      .ok ⟨"SELECT TOP 5 * FROM t ORDER BY (SELECT NULL) OFFSET 0 ROWS FETCH NEXT 5 ROWS ONLY",
           []⟩ ∧
    strHasSub "SELECT TOP 5 * FROM t ORDER BY (SELECT NULL) OFFSET 0 ROWS FETCH NEXT 5 ROWS ONLY"
      "TOP 5" = true := by
  refine ⟨rfl, by decide, by decide⟩

/-- C4 (amended): Scenario A builds to exactly the claimed SQL and parameter
map, and `TOP` is emitted exactly when `limitClause` is truthy and
`offsetClause` is falsy in the JS sense (nonzero limit, and offset null or
zero), checked across representative limit/offset settings. -/
theorem C4_scenarioA_and_top_truthiness :
    ((MutSelect.build (MutSelect.limit (MutSelect.orderBy (MutSelect.whereOp
        (MutSelect.fromTable (MutSelect.select MutSelect.create ["id", "name"]) "users")
        "active" "=" (SqlValue.vBool true)) "name" "ASC") 5)).1 =
      .ok ⟨"SELECT TOP 5 id, name FROM users WHERE active = @param0 ORDER BY name ASC",
           [("param0", SqlValue.vBool true)]⟩) ∧
    (∀ l ∈ ([none, some 0, some 5] : List (Option Int)),
     ∀ o ∈ ([none, some 0, some 7] : List (Option Int)),
      ((MutSelect.build { MutSelect.fromTable (MutSelect.select MutSelect.create ["x"]) "t" with
          limitClause := l, offsetClause := o }).1.toOption.map
        (fun r => strHasSub r.sql "TOP ")) = some (numTruthy l && !numTruthy o)) :=
  ⟨rfl, by decide⟩

/-- C4 witness: the amended truthiness rule applied at `limit = some 5`,
`offset = some 0` (TOP emitted although the offset field is set). -/
theorem C4_scenarioA_and_top_truthiness_witness :
    (some 5 ∈ ([none, some 0, some 5] : List (Option Int))) ∧
    (some 0 ∈ ([none, some 0, some 7] : List (Option Int))) ∧
    ((MutSelect.build { MutSelect.fromTable (MutSelect.select MutSelect.create ["x"]) "t" with
        limitClause := some 5, offsetClause := some 0 }).1.toOption.map
      (fun r => strHasSub r.sql "TOP ")) = some (numTruthy (some 5) && !numTruthy (some 0)) :=
  ⟨by decide, by decide,
   C4_scenarioA_and_top_truthiness.2 (some 5) (by decide) (some 0) (by decide)⟩

/-- C5 counterexample: an UPDATE with `returning(['id'])` builds SQL whose
OUTPUT clause comes after the WHERE clause, not between SET and WHERE as the
claim states. -/
theorem C5_counterexample_output_after_where :
    UpdateQB.build (UpdateQB.returning (UpdateQB.whereOp (UpdateQB.set
        (UpdateQB.table UpdateQB.create "users") "active" (SqlValue.vBool false))
        "id" "=" (SqlValue.vInt 7)) ["id"]) =
      .ok ⟨"UPDATE users SET active = @param0 WHERE id = @param1 OUTPUT INSERTED.id",
           [("param0", SqlValue.vBool false), ("param1", SqlValue.vInt 7)]⟩ ∧
    strHasSub "UPDATE users SET active = @param0 WHERE id = @param1 OUTPUT INSERTED.id"
      " WHERE id = @param1 OUTPUT " = true ∧
    strHasSub "UPDATE users SET active = @param0 WHERE id = @param1 OUTPUT INSERTED.id"
      "OUTPUT INSERTED.id WHERE" = false := by
  refine ⟨by decide, by decide, by decide⟩

/-- C5 (amended): for every UPDATE (resp. DELETE) builder with returning
columns whose build succeeds, the SQL is the SET (resp. DELETE FROM) and
WHERE sections followed by ` OUTPUT INSERTED.cols` (resp. ` OUTPUT
DELETED.cols`) appended at the very end, after the WHERE clause. -/
theorem C5_output_appended_after_where :
    (∀ u : UpdateQB.Builder, u.tableName ≠ "" → u.setValues ≠ [] →
      u.whereConditions ≠ [] → u.returningColumns ≠ [] →
      UpdateQB.build u = .ok
        ⟨"UPDATE " ++ u.tableName ++ " SET " ++
          String.intercalate ", "
            (u.setValues.enum.map (fun p => p.2.1 ++ " = @" ++ paramName p.1)) ++
          " WHERE " ++ (buildWhereUD u.whereConditions u.setValues.length).1 ++
          " OUTPUT " ++
          String.intercalate ", " (u.returningColumns.map (fun c => "INSERTED." ++ c)),
         (u.setValues.enum.map (fun p => (paramName p.1, p.2.2))) ++
           (buildWhereUD u.whereConditions u.setValues.length).2⟩) ∧
    (∀ d : DeleteQB.Builder, d.tableName ≠ "" → d.whereConditions ≠ [] →
      d.returningColumns ≠ [] →
      DeleteQB.build d = .ok
        ⟨"DELETE FROM " ++ d.tableName ++ " WHERE " ++
          (buildWhereUD d.whereConditions 0).1 ++ " OUTPUT " ++
          String.intercalate ", " (d.returningColumns.map (fun c => "DELETED." ++ c)),
         (buildWhereUD d.whereConditions 0).2⟩) := by
  constructor
  · intro u h1 h2 h3 h4
    simp [UpdateQB.build, h1, h2, h3, h4, String.append_assoc]
  · intro d h1 h3 h4
    simp [DeleteQB.build, h1, h3, h4, String.append_assoc]

/-- C5 witness: the amended assembly shape at concrete UPDATE and DELETE
builders with `returning(['id'])`. -/
theorem C5_output_appended_after_where_witness :
    UpdateQB.build ⟨"users", [("active", SqlValue.vBool false)],
        [WhereCondition.simple "id" "=" (SqlValue.vInt 7)], ["id"]⟩ =
      .ok ⟨"UPDATE users SET active = @param0 WHERE id = @param1 OUTPUT INSERTED.id",
           [("param0", SqlValue.vBool false), ("param1", SqlValue.vInt 7)]⟩ ∧
    DeleteQB.build ⟨"users", [WhereCondition.simple "id" "=" (SqlValue.vInt 7)], ["id"]⟩ =
      .ok ⟨"DELETE FROM users WHERE id = @param0 OUTPUT DELETED.id",
           [("param0", SqlValue.vInt 7)]⟩ :=
  ⟨C5_output_appended_after_where.1 ⟨"users", [("active", SqlValue.vBool false)],
      [WhereCondition.simple "id" "=" (SqlValue.vInt 7)], ["id"]⟩
      (by decide) (by decide) (by decide) (by decide),
   C5_output_appended_after_where.2
      ⟨"users", [WhereCondition.simple "id" "=" (SqlValue.vInt 7)], ["id"]⟩
      (by decide) (by decide) (by decide)⟩

/-- C6 counterexample: a DELETE with an empty IN list is not rejected
anywhere: it builds successfully into SQL containing `IN ()`. -/
theorem C6_counterexample_empty_in_builds_sql :
    DeleteQB.build (DeleteQB.whereIn (DeleteQB.fromTable DeleteQB.create "t") "id" []) =
      .ok ⟨"DELETE FROM t WHERE id IN ()", []⟩ ∧
    strHasSub "DELETE FROM t WHERE id IN ()" "IN ()" = true := by
  refine ⟨by decide, by decide⟩

/-- C6 (amended): only the immutable Select builder rejects empty IN lists —
`whereIn`/`whereNotIn` fail with INVALID_IN_VALUES at call time for any
builder state and any valid column — while the Update (and Delete) builders
accept an empty list and render `col IN ()` into the built SQL. -/
theorem C6_empty_in_rejected_only_by_select :
    (∀ (b : ImpSelect.Builder) (col : String),
      ImpSelect.validateColumnName col = none →
      ImpSelect.whereIn b col [] =
        .error ⟨"IN clause requires non-empty array", "INVALID_IN_VALUES"⟩ ∧
      ImpSelect.whereNotIn b col [] =
        .error ⟨"IN clause requires non-empty array", "INVALID_IN_VALUES"⟩) ∧
    UpdateQB.build (UpdateQB.whereIn (UpdateQB.set
        (UpdateQB.table UpdateQB.create "t") "a" (SqlValue.vInt 1)) "id" []) =
      .ok ⟨"UPDATE t SET a = @param0 WHERE id IN ()", [("param0", SqlValue.vInt 1)]⟩ := by
  constructor
  · intro b col h
    constructor
    · simp [ImpSelect.whereIn, h]
    · simp [ImpSelect.whereNotIn, h]
  · decide

/-- C6 witness: the eager INVALID_IN_VALUES rejection at a concrete builder
and column. -/
theorem C6_empty_in_rejected_only_by_select_witness :
    ImpSelect.validateColumnName "id" = none ∧
    (ImpSelect.whereIn ImpSelect.create "id" [] =
        .error ⟨"IN clause requires non-empty array", "INVALID_IN_VALUES"⟩ ∧
     ImpSelect.whereNotIn ImpSelect.create "id" [] =
        .error ⟨"IN clause requires non-empty array", "INVALID_IN_VALUES"⟩) :=
  ⟨by decide, C6_empty_in_rejected_only_by_select.1 ImpSelect.create "id" (by decide)⟩

/-- C7 counterexample: accumulator methods of the immutable builder do raise
validation failures before `build()` is ever invoked: `select` rejects a
column containing `;` immediately, and `limit` rejects a negative count
immediately. -/
theorem C7_counterexample_eager_validation :
    ImpSelect.select ImpSelect.create [";x"] =
      .error ⟨"Invalid characters in column name", "INVALID_COLUMN_NAME"⟩ ∧
    ImpSelect.limit ImpSelect.create (-1) =
      .error ⟨"LIMIT must be a non-negative integer", "INVALID_LIMIT_OFFSET"⟩ := by
  refine ⟨by decide, by decide⟩

/-- C7 (amended): in the immutable builder, argument-level validation is
eager — `select` fails at call time exactly with the error its column fails
`validateColumnName` with — while statement-level validation is deferred:
with valid columns and no FROM clause, `select` succeeds and only `build()`
raises the missing-FROM failure. -/
theorem C7_eager_argument_deferred_statement_validation :
    (∀ (b : ImpSelect.Builder) (col : String) (e : EZqlError),
      ImpSelect.validateColumnName col = some e → ImpSelect.select b [col] = .error e) ∧
    (∀ cols : List String, cols ≠ [] →
      (∀ c ∈ cols, ImpSelect.validateColumnName c = none) →
      ImpSelect.select ImpSelect.create cols =
        .ok { ImpSelect.create with selectColumns := cols } ∧
      ImpSelect.build { ImpSelect.create with selectColumns := cols } =
        .error ⟨"Invalid query: FROM clause is required", "INVALID_QUERY_BUILD"⟩) := by
  constructor
  · intro b col e h
    simp [ImpSelect.select, ImpSelect.validateColumns, List.findSome?, h]
  · intro cols h1 h2
    constructor
    · simp [ImpSelect.select, ImpSelect.validateColumns, h1,
        findSomeNoneOfAll ImpSelect.validateColumnName cols h2, ImpSelect.create]
    · have hv : ImpSelect.validate { ImpSelect.create with selectColumns := cols } =
          ["FROM clause is required"] := by
        simp [ImpSelect.validate, ImpSelect.create, h1]
      simp [ImpSelect.build, ImpSelect.buildSt, hv]
      decide

/-- C7 witness: the eager select failure at `";x"` and the deferred
missing-FROM failure for the valid column list `["id"]`. -/
theorem C7_eager_argument_deferred_statement_validation_witness :
    (ImpSelect.validateColumnName ";x" =
      some ⟨"Invalid characters in column name", "INVALID_COLUMN_NAME"⟩) ∧
    ImpSelect.select ImpSelect.create [";x"] =
      .error ⟨"Invalid characters in column name", "INVALID_COLUMN_NAME"⟩ ∧
    (ImpSelect.select ImpSelect.create ["id"] =
        .ok { ImpSelect.create with selectColumns := ["id"] } ∧
     ImpSelect.build { ImpSelect.create with selectColumns := ["id"] } =
        .error ⟨"Invalid query: FROM clause is required", "INVALID_QUERY_BUILD"⟩) :=
  ⟨by decide,
   C7_eager_argument_deferred_statement_validation.1 ImpSelect.create ";x"
     ⟨"Invalid characters in column name", "INVALID_COLUMN_NAME"⟩ (by decide),
   C7_eager_argument_deferred_statement_validation.2 ["id"] (by decide) (by decide)⟩

/-- C8: `build()` of the immutable SelectQueryBuilder leaves the builder
state unchanged, and a second `build()` on the post-call state returns the
same `{sql, parameters}` value byte for byte. -/
theorem C8_build_pure_and_idempotent : ∀ b : ImpSelect.Builder,
    (ImpSelect.buildSt b).2 = b ∧
    (ImpSelect.buildSt ((ImpSelect.buildSt b).2)).1 = (ImpSelect.buildSt b).1 := by
  intro b
  have h : (ImpSelect.buildSt b).2 = b := by
    simp only [ImpSelect.buildSt]
    split <;> rfl
  exact ⟨h, by rw [h]⟩

/-- C9: for every multi-row INSERT with a table, the column list is the first
row's keys, the parameter map numbers the rows' values consecutively from 0
in column-then-row order, and Scenario D builds to exactly the claimed SQL
and parameters. -/
theorem C9_multi_row_insert_columns_and_parameters :
    (∀ (t : String) (firstRow : QueryParameters) (rest : List QueryParameters),
      t ≠ "" →
      ∃ res tail, InsertQB.build ⟨t, [], firstRow :: rest, []⟩ = .ok res ∧
        res.parameters =
          enumFrom 0 (rowMajorValues (firstRow.map (fun p => p.1)) (firstRow :: rest)) ∧
        res.sql = "INSERT INTO " ++ t ++ " (" ++
          String.intercalate ", " (firstRow.map (fun p => p.1)) ++ ") VALUES " ++ tail) ∧
    InsertQB.build (InsertQB.multipleRows (InsertQB.into InsertQB.create "t")
        [[("a", SqlValue.vInt 1), ("b", SqlValue.vInt 2)],
         [("a", SqlValue.vInt 3), ("b", SqlValue.vInt 4)]]) =
      .ok ⟨"INSERT INTO t (a, b) VALUES (@param0, @param1), (@param2, @param3)",
           [("param0", SqlValue.vInt 1), ("param1", SqlValue.vInt 2),
            ("param2", SqlValue.vInt 3), ("param3", SqlValue.vInt 4)]⟩ := by
  constructor
  · intro t firstRow rest ht
    have hb : InsertQB.build ⟨t, [], firstRow :: rest, []⟩ = .ok
        ⟨"INSERT INTO " ++ t ++ " (" ++
          String.intercalate ", " (firstRow.map (fun p => p.1)) ++ ") VALUES " ++
          String.intercalate ", "
            (InsertQB.renderRows (firstRow :: rest) (firstRow.map (fun p => p.1)) 0).2,
         (InsertQB.renderRows (firstRow :: rest) (firstRow.map (fun p => p.1)) 0).1⟩ := by
      simp only [InsertQB.build, InsertQB.buildMultipleInsert, List.length_cons]
      rw [if_neg ht, if_pos (Nat.succ_pos _)]
      simp
    exact ⟨_, _, hb, by simp [renderRows_fst], rfl⟩
  · decide

/-- C9 witness: the general statement instantiated at the two rows of
Scenario D. -/
theorem C9_multi_row_insert_columns_and_parameters_witness :
    (("t" : String) ≠ "") ∧
    (∃ res tail,
      InsertQB.build ⟨"t", [], [[("a", SqlValue.vInt 1), ("b", SqlValue.vInt 2)],
        [("a", SqlValue.vInt 3), ("b", SqlValue.vInt 4)]], []⟩ = .ok res ∧
      res.parameters = enumFrom 0 (rowMajorValues
        ([("a", SqlValue.vInt 1), ("b", SqlValue.vInt 2)].map (fun p => p.1))
        [[("a", SqlValue.vInt 1), ("b", SqlValue.vInt 2)],
         [("a", SqlValue.vInt 3), ("b", SqlValue.vInt 4)]]) ∧
      res.sql = "INSERT INTO " ++ "t" ++ " (" ++
        String.intercalate ", "
          ([("a", SqlValue.vInt 1), ("b", SqlValue.vInt 2)].map (fun p => p.1)) ++
        ") VALUES " ++ tail) :=
  ⟨by decide, C9_multi_row_insert_columns_and_parameters.1 "t"
    [("a", SqlValue.vInt 1), ("b", SqlValue.vInt 2)]
    [[("a", SqlValue.vInt 3), ("b", SqlValue.vInt 4)]] (by decide)⟩

/-- C10: `limit(0)` and `offset(0)` pass validation on the immutable builder
but the zero is normalized away to `null` by the constructor, so the
resulting builder is exactly the one with the field unset: the subsequent
build equals the build without the call and its SQL has no TOP, OFFSET or
FETCH clause. -/
theorem C10_limit_offset_zero_discarded :
    (∀ b : ImpSelect.Builder,
      ImpSelect.limit b 0 = .ok { b with limitClause := none } ∧
      ImpSelect.offset b 0 = .ok { b with offsetClause := none }) ∧
    ((ImpSelect.select ImpSelect.create ["a"]).bind (fun b =>
        (ImpSelect.fromTable b "t").bind (fun b2 => ImpSelect.limit b2 0))).bind
          ImpSelect.build =
      ((ImpSelect.select ImpSelect.create ["a"]).bind (fun b =>
        ImpSelect.fromTable b "t")).bind ImpSelect.build ∧
    ((ImpSelect.select ImpSelect.create ["a"]).bind (fun b =>
        (ImpSelect.fromTable b "t").bind (fun b2 => ImpSelect.offset b2 0))).bind
          ImpSelect.build = .ok ⟨"SELECT a FROM t", []⟩ ∧
    ((ImpSelect.select ImpSelect.create ["a"]).bind (fun b =>
        (ImpSelect.fromTable b "t").bind (fun b2 => ImpSelect.limit b2 0))).bind
          ImpSelect.build = .ok ⟨"SELECT a FROM t", []⟩ ∧
    strHasSub "SELECT a FROM t" "TOP" = false ∧
    strHasSub "SELECT a FROM t" "OFFSET" = false ∧
    strHasSub "SELECT a FROM t" "FETCH" = false := by
  refine ⟨fun b => ⟨rfl, rfl⟩, by decide, by decide, by decide, by decide, by decide, by decide⟩
